import Mathlib

/-!
Shallow embedding of the command-dispatch and motor-limit layer of the
`gros_client_js` robot client (sources: `lib/robot/robot_base.ts`,
`lib/robot/human.ts`, `lib/motor/motor.ts`).

JavaScript numbers passed through this layer are only compared and copied,
never arithmetically combined, so they are modelled by `JSNum`: either a
rational (any actual numeric value), the special `nan` value, or
`undef` (a missing/`undefined` argument).  JS loose comparisons are
modelled accordingly: `undefined == undefined` is true, `NaN > x` and
`NaN < x` are false, `undefined > x` and `undefined < x` are false.
-/

namespace GrosClient

/-- Model of a JavaScript number-typed slot: an actual numeric value,
`NaN`, or `undefined` (a missing argument). -/
inductive JSNum where
  | undef : JSNum
  | nan : JSNum
  | num : ℚ → JSNum
deriving DecidableEq, Repr

/-- JS `>` against a numeric threshold: false for `NaN` and `undefined`. -/
def jsGt : JSNum → ℚ → Bool
  | JSNum.num a, b => decide (b < a)
  | _, _ => false

/-- JS `<` against a numeric threshold: false for `NaN` and `undefined`. -/
def jsLt : JSNum → ℚ → Bool
  | JSNum.num a, b => decide (a < b)
  | _, _ => false

/-- `RobotBase.cover_param(value, name, minThreshold, maxThreshold)`
(`lib/robot/robot_base.ts`): an `undefined` value is replaced by 0
(with a logged warning); then a value above `maxThreshold` is replaced
by `maxThreshold`; then a value below `minThreshold` is replaced by
`minThreshold`.  The `name` argument is only used in log messages. -/
def cover_param (value : JSNum) (name : String)
    (minThreshold maxThreshold : ℚ) : JSNum :=
  let v1 := if value = JSNum.undef then JSNum.num 0 else value
  let v2 := if jsGt v1 maxThreshold then JSNum.num maxThreshold else v1
  if jsLt v2 minThreshold then JSNum.num minThreshold else v2

/-- Spec-side notion used by the claims: a value "lies within
`[mn, mx]`" exactly when it is an actual number in that interval. -/
def inRange : JSNum → ℚ → ℚ → Bool
  | JSNum.num a, mn, mx => decide (mn ≤ a ∧ a ≤ mx)
  | _, _, _ => false

/-- A caller-supplied joint target (class `Motor` / `MotorScheme`):
`{no, orientation, angle}`. -/
structure MotorScheme where
  no : String
  orientation : String
  angle : JSNum
deriving DecidableEq, Repr

/-- One record of the robot-reported motor limit table
(`GET /robot/motor/limit/list`): `{no, orientation, min_angle,
max_angle, ip}`. -/
structure MotorLimit where
  no : String
  orientation : String
  min_angle : ℚ
  max_angle : ℚ
  ip : String
deriving DecidableEq, Repr

/-- The record produced by the spread-merge `{...item1, ...item2}` of a
target `item1` and a limit record `item2` inside `move_joint`: the limit
record is spread last, so its `no`/`orientation` win (they are equal to
the target's by the join condition) and its bound and address fields are
added; `angle` is only present on the target and survives. -/
structure JoinedMotor where
  no : String
  orientation : String
  angle : JSNum
  min_angle : ℚ
  max_angle : ℚ
  ip : String
deriving DecidableEq, Repr

/-- An entry of the outbound `move_joint` batch after the `delete`
statements: the bound fields and the `ip` field are absent (`none`). -/
structure OutMotor where
  no : String
  orientation : String
  angle : JSNum
  min_angle : Option ℚ
  max_angle : Option ℚ
  ip : Option String
deriving DecidableEq, Repr

/-- Payload shapes of the streaming envelopes used by this layer. -/
inductive EnvData where
  | jointBatch : List OutMotor → EnvData
  | motorSel : String → String → EnvData
deriving DecidableEq, Repr

/-- The wire unit of the streaming channel: `{command, data}`. -/
structure Envelope where
  command : String
  data : EnvData
deriving DecidableEq, Repr

/-- Step 1 of `move_joint`: rebuild each target as a plain
`{no, orientation, angle}` object. -/
def normalize (args : List MotorScheme) : List MotorScheme :=
  args.map (fun m => { no := m.no, orientation := m.orientation, angle := m.angle })

/-- The join condition of `move_joint`:
`item1.no == item2.no && item1.orientation == item2.orientation`. -/
def matchKey (t : MotorScheme) (l : MotorLimit) : Bool :=
  decide (t.no = l.no) && decide (t.orientation = l.orientation)

/-- The spread-merge `{...item1, ...item2}` of `move_joint` step 3. -/
def mergeMotor (t : MotorScheme) (l : MotorLimit) : JoinedMotor :=
  { no := l.no, orientation := l.orientation, angle := t.angle,
    min_angle := l.min_angle, max_angle := l.max_angle, ip := l.ip }

/-- Step 3 of `move_joint`: the nested `forEach` loops push one merged
record per matching (target, limit) pair, targets outermost. -/
def joinTargets (motors : List MotorScheme) (limits : List MotorLimit) :
    List JoinedMotor :=
  motors.flatMap (fun t => (limits.filter (fun l => matchKey t l)).map (mergeMotor t))

/-- Step 4 of `move_joint`: clamp the angle through `cover_param` with
the joined record's own bounds, then `delete` `min_angle`, `max_angle`
and `ip`. -/
def sanitizeMotor (m : JoinedMotor) : OutMotor :=
  { no := m.no, orientation := m.orientation,
    angle := cover_param m.angle "angle" m.min_angle m.max_angle,
    min_angle := none, max_angle := none, ip := none }

/-- The full outbound batch `target_list` that `move_joint` computes for
a caller batch `args` against a populated limit cache. -/
def moveJointTargets (args : List MotorScheme) (motor_limits : List MotorLimit) :
    List OutMotor :=
  (joinTargets (normalize args) motor_limits).map sanitizeMotor

/-- Step 5 of `move_joint`: the envelope
`{'command': 'move_joint', 'data': {'command': target_list}}`. -/
def moveJointEnvelope (target_list : List OutMotor) : Envelope :=
  { command := "move_joint", data := EnvData.jointBatch target_list }

/-- A send on the streaming channel, tagged with the virtual time (ms)
at which `move_joint` performed it. -/
structure SendEvent where
  time : ℕ
  env : Envelope
deriving DecidableEq, Repr

/-- The timed behaviour of `Human.move_joint` / `Motor.move_joint`:
`limitsAt t` is the content of the `motor_limits` cache at virtual time
`t` (it is filled by an independent background fetch).  At each attempt,
if the cache is empty the whole original batch is rescheduled 500 ms
later (`setTimeout(... , 500)`); once the cache is non-empty the batch
is joined, clamped and — only when the resulting `target_list` is
non-empty — sent.  `fuel` bounds how many attempts are observed; an
observation window that ends while the dispatch is still rescheduling
itself yields no further events. -/
def move_joint_loop (limitsAt : ℕ → List MotorLimit) (args : List MotorScheme) :
    ℕ → ℕ → List SendEvent
  | _, 0 => []
  | t, fuel + 1 =>
    if (limitsAt t).length = 0 then
      move_joint_loop limitsAt args (t + 500) fuel
    else
      let target_list := moveJointTargets args (limitsAt t)
      if 0 < target_list.length then
        [{ time := t, env := moveJointEnvelope target_list }]
      else
        []

/-- Observable outcome of one `RobotBase.websocket_send` attempt. -/
inductive SendOutcome where
  | sent : Envelope → SendOutcome
  | scheduled : ℕ → SendOutcome
  | fatal : SendOutcome
deriving DecidableEq, Repr

/-- `RobotBase.websocket_send(message)` (`lib/robot/robot_base.ts`) as a
step on the instance's `retry_count`: when the channel is open
(`readyState === 1`) the serialized envelope is transmitted and the
counter reset to 0; otherwise, when the counter has reached 5 the call
throws (fatal error); otherwise the counter is incremented and a retry
of the same message is scheduled 1000 ms later. -/
def websocket_send (wsOpen : Bool) (retry_count : ℕ) (message : Envelope) :
    SendOutcome × ℕ :=
  if wsOpen then
    (SendOutcome.sent message, 0)
  else if retry_count = 5 then
    (SendOutcome.fatal, retry_count)
  else
    (SendOutcome.scheduled 1000, retry_count + 1)

/-- The sequence of outcomes of `n` successive `websocket_send` attempts
for the same message while the channel is never open, starting from a
fresh instance (`retry_count = 0`); the second component is the value of
`retry_count` after those attempts. -/
def neverOpenRun (message : Envelope) : ℕ → List SendOutcome × ℕ
  | 0 => ([], 0)
  | n + 1 =>
    let prev := neverOpenRun message n
    let step := websocket_send false prev.2 message
    (prev.1 ++ [step.1], step.2)

/-- JS whitespace accepted by `parseInt` before the number. -/
def jsSpace (c : Char) : Bool :=
  c = ' ' || c = '\t' || c = '\n' || c = '\r'

/-- Value of a leading run of decimal digits; `none` when there is no
digit (JS `parseInt` returns `NaN`). -/
def parseDigits (cs : List Char) : Option ℕ :=
  let ds := cs.takeWhile Char.isDigit
  if ds.isEmpty then none
  else some (ds.foldl (fun a c => 10 * a + (c.toNat - 48)) 0)

/-- JavaScript `parseInt(s)` (radix 10): skip leading whitespace, accept
an optional sign, read leading decimal digits; `none` models `NaN`. -/
def parseIntJS (s : String) : Option ℤ :=
  match s.data.dropWhile (fun c => jsSpace c) with
  | '-' :: rest => (parseDigits rest).map (fun n => -(n : ℤ))
  | '+' :: rest => (parseDigits rest).map (fun n => (n : ℤ))
  | cs => (parseDigits cs).map (fun n => (n : ℤ))

/-- JS `parseInt(no) > 8`: comparison with `NaN` (here `none`) is false. -/
def jsIntGt (v : Option ℤ) (b : ℤ) : Bool :=
  match v with
  | some a => decide (b < a)
  | none => false

/-- `Motor.enable_motor(no, orientation)` (`lib/motor/motor.ts`): when
`parseInt(no) > 8` it only logs and returns (`none`); otherwise it sends
the `enable_motor` envelope (`some`). -/
def enable_motor (no orientation : String) : Option Envelope :=
  if jsIntGt (parseIntJS no) 8 then none
  else some { command := "enable_motor", data := EnvData.motorSel no orientation }

/-- `Motor.disable_motor(no, orientation)` (`lib/motor/motor.ts`):
same guard as `enable_motor`, sending the `disable_motor` envelope. -/
def disable_motor (no orientation : String) : Option Envelope :=
  if jsIntGt (parseIntJS no) 8 then none
  else some { command := "disable_motor", data := EnvData.motorSel no orientation }

/-- The fields of an `AxiosRequestConfig` that the repository's call
sites populate; `timeout := none` models a config object without a
`timeout` key. -/
structure AxiosRequestConfig where
  method : String := ""
  url : String := ""
  timeout : Option ℕ := none
deriving DecidableEq, Repr

/-- The request object actually handed to `axios.request`. -/
structure EffectiveRequest where
  timeout : ℕ
  baseURL : String
  method : String
  url : String
deriving DecidableEq, Repr

/-- `RobotBase.http_request(config)`: builds
`{timeout: 5000, baseURL: this.baseUrl, ...config}` — the spread is
last, so a `timeout` key present on `config` would override the 5000
default, and an absent one leaves it at 5000. -/
def http_request (baseUrl : String) (config : AxiosRequestConfig) :
    EffectiveRequest :=
  { timeout := config.timeout.getD 5000,
    baseURL := baseUrl, method := config.method, url := config.url }

/-- Outcome of a control-plane call. -/
inductive HttpOutcome where
  | ok : HttpOutcome
  | timeoutErr : ℕ → HttpOutcome
deriving DecidableEq, Repr

/-- Modelled from the spec: the request/response transport itself
(the `axios` library) is not part of this repository.  Per the spec's
interface contract, it performs exactly one attempt (no automatic
retry) and, when the endpoint never responds, fails with a timeout
error after the configured `timeout` milliseconds.  The second
component is the number of attempts performed. -/
def axiosPerform (req : EffectiveRequest) (endpointResponds : Bool) :
    HttpOutcome × ℕ :=
  if endpointResponds then (HttpOutcome.ok, 1)
  else (HttpOutcome.timeoutErr req.timeout, 1)

/-- Every config object the repository passes to `http_request`
(`robot_base.ts`, `human.ts`, `car.ts`, `motor.ts`,
`end_effector.ts`); none of them carries a `timeout` key. -/
def repoCallConfigs : List AxiosRequestConfig :=
  [ { method := "POST", url := "/robot/start" },
    { method := "POST", url := "/robot/stop" },
    { method := "POST", url := "/robot/stand" },
    { method := "GET", url := "/robot/join_limit" },
    { method := "GET", url := "/robot/joint_states" },
    { method := "GET", url := "/robot/enable_states_listen" },
    { method := "GET", url := "/robot/disable_states_listen" },
    { method := "POST", url := "/robot/upper_body" },
    { method := "POST", url := "/robot/lower_body" },
    { method := "GET", url := "/robot/motor/limit/list" },
    { method := "GET", url := "/robot/sdk_ctrl/start" },
    { method := "GET", url := "/robot/sdk_ctrl/close" },
    { method := "GET", url := "/robot/sdk_ctrl/status" },
    { method := "GET", url := "/robot/sdk_ctrl/log" },
    { method := "POST", url := "/robot/mode" },
    { method := "GET", url := "/robot/motor/hand/enable" },
    { method := "GET", url := "/robot/motor/hand/disable" },
    { method := "POST", url := "/robot/motor/pvc" },
    { method := "POST", url := "/robot/motor/hand/state" },
    { method := "GET", url := "/robot/end_effector/enable" },
    { method := "GET", url := "/robot/end_effector/disable" },
    { method := "GET", url := "/robot/enable_terminal_state" } ]

/-- Two limit records share the compound key `(no, orientation)`. -/
def sameKey (a b : MotorLimit) : Bool :=
  decide (a.no = b.no) && decide (a.orientation = b.orientation)

/-- The limit table has at most one record per compound key. -/
def uniqueKeysB : List MotorLimit → Bool
  | [] => true
  | l :: ls => !(ls.any (fun l2 => sameKey l l2)) && uniqueKeysB ls

/-- The cache population `this.motor_limits = res.data.data` performed
by the `Human` / `Motor` constructor: the fetched table is assigned
verbatim, with no de-duplication or validation. -/
def populate (resp : List MotorLimit) : List MotorLimit := resp

/-- The sample limit record of the spec's P3/E2E scenarios:
`{no:"1", orientation:"left", min_angle:-10, max_angle:10, ip:"x"}`. -/
def cexLimit : MotorLimit :=
  { no := "1", orientation := "left", min_angle := -10, max_angle := 10, ip := "x" }

/-- A cache timeline that is empty before 500 ms and holds `cexLimit`
from then on. -/
def cexLimitsAt : ℕ → List MotorLimit :=
  fun t => if t < 500 then [] else [cexLimit]

/-- A sample envelope used to exercise `websocket_send`. -/
def demoEnv : Envelope :=
  { command := "move_joint", data := EnvData.jointBatch [] }

/- ------------------------------------------------------------------ -/
/- Helper lemmas                                                      -/
/- ------------------------------------------------------------------ -/

/-- Whenever `min ≤ max` and the input is not `NaN`, `cover_param`
returns an actual number inside `[min, max]`. -/
theorem cover_param_in_range (v : JSNum) (name : String) (mn mx : ℚ)
    (h : mn ≤ mx) (hv : v ≠ JSNum.nan) :
    ∃ a : ℚ, cover_param v name mn mx = JSNum.num a ∧ mn ≤ a ∧ a ≤ mx := by
  cases v with
  | nan => exact absurd rfl hv
  | undef =>
      simp only [cover_param, jsGt, jsLt]
      split_ifs <;> simp_all
  | num q =>
      simp only [cover_param, jsGt, jsLt]
      split_ifs <;> simp_all

/-- Step 1 of `move_joint` rebuilds each target with exactly its own
three fields, so it is the identity on the batch. -/
theorem normalize_eq (args : List MotorScheme) : normalize args = args := by
  induction args with
  | nil => rfl
  | cons m ms ih => simp only [normalize, List.map_cons, List.cons.injEq] at ih ⊢; exact ⟨trivial, ih⟩

/- ------------------------------------------------------------------ -/
/- C5                                                                 -/
/- ------------------------------------------------------------------ -/

/-- C5: for thresholds with `min ≤ max`, `cover_param` returns `min`
for a value below `min`, `max` for a value above `max`, the value
itself otherwise, and, for an `undefined` value, 0 clamped into
`[min, max]`. -/
theorem cover_param_clamp_spec (v mn mx : ℚ) (name : String) (h : mn ≤ mx) :
    (v < mn → cover_param (JSNum.num v) name mn mx = JSNum.num mn) ∧
    (mx < v → cover_param (JSNum.num v) name mn mx = JSNum.num mx) ∧
    (mn ≤ v → v ≤ mx → cover_param (JSNum.num v) name mn mx = JSNum.num v) ∧
    cover_param JSNum.undef name mn mx = JSNum.num (max mn (min mx 0)) := by
  refine ⟨fun hlt => ?_, fun hgt => ?_, fun h1 h2 => ?_, ?_⟩
  · simp only [cover_param, jsGt, jsLt]
    split_ifs <;> simp_all <;> linarith
  · simp only [cover_param, jsGt, jsLt]
    split_ifs <;> simp_all <;> linarith
  · simp only [cover_param, jsGt, jsLt]
    split_ifs <;> simp_all <;> linarith
  · simp only [cover_param, jsGt, jsLt]
    split_ifs <;> simp_all <;>
      first
        | linarith
        | (rw [min_eq_left (by linarith), max_eq_right h])
        | (rw [min_eq_right (by linarith), max_eq_left (by linarith)])
        | (rw [min_eq_right (by linarith), max_eq_right (by linarith)])
        | (exact Or.inl (by linarith))
        | (exact Or.inr (by linarith))

/-- Witness for C5 at `value = 99`, bounds `[-10, 10]`. -/
theorem cover_param_clamp_spec_witness :
    cover_param (JSNum.num 99) "angle" (-10) 10 = JSNum.num 10 :=
  (cover_param_clamp_spec 99 (-10) 10 "angle" (by norm_num)).2.1 (by norm_num)

/- ------------------------------------------------------------------ -/
/- C6                                                                 -/
/- ------------------------------------------------------------------ -/

/-- C6 counterexample: a `NaN` input is returned unchanged by
`cover_param` — it is not coerced to a numeric value in `[min, max]`
(in JS, `NaN == undefined`, `NaN > max` and `NaN < min` are all
false, so every branch is skipped). -/
theorem cover_param_nan_not_in_range :
    cover_param JSNum.nan "angle" (-10) 10 = JSNum.nan ∧
    inRange JSNum.nan (-10) 10 = false := by
  exact ⟨rfl, rfl⟩

/-- C6 (amended): for every input other than `NaN` — including
`undefined` — and thresholds with `min ≤ max`, `cover_param` returns a
numeric value lying within `[min, max]` (and, being a total function,
never throws); a `NaN` input is passed through unchanged. -/
theorem cover_param_total_amended (v : JSNum) (name : String) (mn mx : ℚ)
    (h : mn ≤ mx) (hv : v ≠ JSNum.nan) :
    inRange (cover_param v name mn mx) mn mx = true := by
  obtain ⟨a, ha, h1, h2⟩ := cover_param_in_range v name mn mx h hv
  rw [ha]
  simp [inRange, h1, h2]

/-- Witness for C6 (amended) at an `undefined` input, bounds `[3, 10]`. -/
theorem cover_param_total_amended_witness :
    inRange (cover_param JSNum.undef "angle" 3 10) 3 10 = true :=
  cover_param_total_amended JSNum.undef "angle" 3 10 (by norm_num) (by decide)

/- ------------------------------------------------------------------ -/
/- C1                                                                 -/
/- ------------------------------------------------------------------ -/

/-- C1 counterexample: a batch whose target angle is `NaN`, dispatched
against the limit record `("1", "left", -10, 10)`, produces an outbound
entry whose angle is `NaN` — not a value within the matched record's
`[min_angle, max_angle]` range (`cover_param` does not clamp `NaN`). -/
theorem moveJoint_nan_angle_escapes :
    (moveJointTargets [{ no := "1", orientation := "left", angle := JSNum.nan }]
        [cexLimit]).map OutMotor.angle = [JSNum.nan] ∧
    inRange JSNum.nan cexLimit.min_angle cexLimit.max_angle = false := by
  exact ⟨rfl, rfl⟩

/-- C1 (amended): for every batch whose target angles are not `NaN` and
every populated limit cache whose records have `min_angle ≤ max_angle`,
every entry of the outbound `move_joint` batch carries an angle that is
an actual number within the `[min_angle, max_angle]` of the limit
record it was matched with; a `NaN` target angle instead passes through
to the wire un-clamped. -/
theorem moveJoint_clamped_amended (args : List MotorScheme)
    (limits : List MotorLimit)
    (hb : ∀ l ∈ limits, l.min_angle ≤ l.max_angle)
    (ha : ∀ m ∈ args, m.angle ≠ JSNum.nan) :
    ∀ e ∈ moveJointTargets args limits,
      ∃ l ∈ limits, e.no = l.no ∧ e.orientation = l.orientation ∧
        ∃ a : ℚ, e.angle = JSNum.num a ∧ l.min_angle ≤ a ∧ a ≤ l.max_angle := by
  intro e he
  rw [moveJointTargets, normalize_eq] at he
  simp only [List.mem_map] at he
  obtain ⟨j, hj, rfl⟩ := he
  simp only [joinTargets, List.mem_flatMap, List.mem_map] at hj
  obtain ⟨t, ht, l, hl, rfl⟩ := hj
  have hlmem : l ∈ limits := (List.mem_filter.mp hl).1
  refine ⟨l, hlmem, rfl, rfl, ?_⟩
  exact cover_param_in_range t.angle "angle" l.min_angle l.max_angle
    (hb l hlmem) (ha t ht)

/-- Witness for C1 (amended): the batch `[("1", "left", 99)]` against
the cache `[("1", "left", -10, 10)]`. -/
theorem moveJoint_clamped_amended_witness :
    ∃ l ∈ [cexLimit],
      ({ no := "1", orientation := "left", angle := JSNum.num 10,
         min_angle := none, max_angle := none, ip := none } : OutMotor).no = l.no ∧
      ({ no := "1", orientation := "left", angle := JSNum.num 10,
         min_angle := none, max_angle := none, ip := none } : OutMotor).orientation = l.orientation ∧
      ∃ a : ℚ,
        ({ no := "1", orientation := "left", angle := JSNum.num 10,
           min_angle := none, max_angle := none, ip := none } : OutMotor).angle = JSNum.num a ∧
        l.min_angle ≤ a ∧ a ≤ l.max_angle :=
  moveJoint_clamped_amended
    [{ no := "1", orientation := "left", angle := JSNum.num 99 }] [cexLimit]
    (by decide) (by decide)
    { no := "1", orientation := "left", angle := JSNum.num 10,
      min_angle := none, max_angle := none, ip := none }
    (by decide)

/- ------------------------------------------------------------------ -/
/- C3                                                                 -/
/- ------------------------------------------------------------------ -/

/-- C3: the batch
`[{no:"1", orientation:"left", angle:99}, {no:"99", orientation:"left", angle:5}]`
against a cache holding only `("1", "left", -10, 10)` yields exactly the
single outbound entry `{no:"1", orientation:"left", angle:10}` — joint
"99" is dropped; and in general every outbound entry arises from a
target joined with a matching limit record, so unmatched targets are
silently excluded and never pass through un-clamped. -/
theorem moveJoint_partial_match_drop :
    moveJointTargets
        [{ no := "1", orientation := "left", angle := JSNum.num 99 },
         { no := "99", orientation := "left", angle := JSNum.num 5 }]
        [cexLimit]
      = [{ no := "1", orientation := "left", angle := JSNum.num 10,
           min_angle := none, max_angle := none, ip := none }] ∧
    ∀ (args : List MotorScheme) (limits : List MotorLimit) (e : OutMotor),
      e ∈ moveJointTargets args limits →
      ∃ t ∈ args, ∃ l ∈ limits,
        t.no = l.no ∧ t.orientation = l.orientation ∧
        e = sanitizeMotor (mergeMotor t l) := by
  refine ⟨by decide, ?_⟩
  intro args limits e he
  rw [moveJointTargets, normalize_eq] at he
  simp only [List.mem_map] at he
  obtain ⟨j, hj, rfl⟩ := he
  simp only [joinTargets, List.mem_flatMap, List.mem_map] at hj
  obtain ⟨t, ht, l, hl, rfl⟩ := hj
  obtain ⟨hlmem, hkey⟩ := List.mem_filter.mp hl
  simp only [matchKey, Bool.and_eq_true, decide_eq_true_eq] at hkey
  exact ⟨t, ht, l, hlmem, hkey.1, hkey.2, rfl⟩

/-- Witness for C3's general clause at the outbound entry of the P3
scenario. -/
theorem moveJoint_partial_match_drop_witness :
    ∃ t ∈ [{ no := "1", orientation := "left", angle := JSNum.num 99 },
           { no := "99", orientation := "left", angle := JSNum.num 5 }],
      ∃ l ∈ [cexLimit],
        MotorScheme.no t = l.no ∧ MotorScheme.orientation t = l.orientation ∧
        ({ no := "1", orientation := "left", angle := JSNum.num 10,
           min_angle := none, max_angle := none, ip := none } : OutMotor)
          = sanitizeMotor (mergeMotor t l) :=
  moveJoint_partial_match_drop.2
    [{ no := "1", orientation := "left", angle := JSNum.num 99 },
     { no := "99", orientation := "left", angle := JSNum.num 5 }]
    [cexLimit]
    { no := "1", orientation := "left", angle := JSNum.num 10,
      min_angle := none, max_angle := none, ip := none }
    (by decide)

/- ------------------------------------------------------------------ -/
/- C7                                                                 -/
/- ------------------------------------------------------------------ -/

/-- C7: every entry of the outbound `move_joint` batch has its
`min_angle`, `max_angle` and `ip` fields deleted — only `no`,
`orientation` and `angle` remain populated. -/
theorem moveJoint_strips_bound_fields (args : List MotorScheme)
    (limits : List MotorLimit) :
    ∀ e ∈ moveJointTargets args limits,
      e.min_angle = none ∧ e.max_angle = none ∧ e.ip = none := by
  intro e he
  simp only [moveJointTargets, List.mem_map] at he
  obtain ⟨j, _, rfl⟩ := he
  exact ⟨rfl, rfl, rfl⟩

/-- Witness for C7 at the P3 scenario's outbound entry. -/
theorem moveJoint_strips_bound_fields_witness :
    ({ no := "1", orientation := "left", angle := JSNum.num 10,
       min_angle := none, max_angle := none, ip := none } : OutMotor).min_angle = none ∧
    ({ no := "1", orientation := "left", angle := JSNum.num 10,
       min_angle := none, max_angle := none, ip := none } : OutMotor).max_angle = none ∧
    ({ no := "1", orientation := "left", angle := JSNum.num 10,
       min_angle := none, max_angle := none, ip := none } : OutMotor).ip = none :=
  moveJoint_strips_bound_fields
    [{ no := "1", orientation := "left", angle := JSNum.num 99 }] [cexLimit]
    { no := "1", orientation := "left", angle := JSNum.num 10,
      min_angle := none, max_angle := none, ip := none }
    (by decide)

/- ------------------------------------------------------------------ -/
/- C2                                                                 -/
/- ------------------------------------------------------------------ -/

/-- While the cache at the current attempt time is empty, `move_joint`
performs no send and reschedules the whole batch 500 ms later. -/
theorem move_joint_loop_empty_step (limitsAt : ℕ → List MotorLimit)
    (args : List MotorScheme) (t fuel : ℕ) (h : limitsAt t = []) :
    move_joint_loop limitsAt args t (fuel + 1)
      = move_joint_loop limitsAt args (t + 500) fuel := by
  simp [move_joint_loop, h]

/-- A cache that never populates makes `move_joint` retry forever:
no send is ever produced (and no error is raised). -/
theorem move_joint_loop_never_populated (args : List MotorScheme) :
    ∀ (fuel t : ℕ), move_joint_loop (fun _ => []) args t fuel = [] := by
  intro fuel
  induction fuel with
  | zero => intro t; rfl
  | succ n ih =>
      intro t
      rw [move_joint_loop_empty_step _ _ _ _ rfl]
      exact ih (t + 500)

/-- General shape of a dispatch whose cache is empty for the first `k`
attempts and non-empty at the `k`-th: the loop reaches time
`t0 + 500 * k` without sending and then dispatches there (sending only
when some target matched). -/
theorem move_joint_loop_first_populated (args : List MotorScheme)
    (limitsAt : ℕ → List MotorLimit) :
    ∀ (k t0 fuel : ℕ), k < fuel →
      (∀ i, i < k → limitsAt (t0 + 500 * i) = []) →
      limitsAt (t0 + 500 * k) ≠ [] →
      move_joint_loop limitsAt args t0 fuel
        = (if 0 < (moveJointTargets args (limitsAt (t0 + 500 * k))).length
           then [{ time := t0 + 500 * k,
                   env := moveJointEnvelope
                     (moveJointTargets args (limitsAt (t0 + 500 * k))) }]
           else []) := by
  intro k
  induction k with
  | zero =>
      intro t0 fuel hf _ hk
      obtain ⟨f, rfl⟩ : ∃ f, fuel = f + 1 := ⟨fuel - 1, by omega⟩
      simp only [Nat.mul_zero, Nat.add_zero] at hk ⊢
      have hlen : ¬ (limitsAt t0).length = 0 := by
        simpa [List.length_eq_zero] using hk
      simp only [move_joint_loop, if_neg hlen]
  | succ n ih =>
      intro t0 fuel hf h0 hk
      obtain ⟨f, rfl⟩ : ∃ f, fuel = f + 1 := ⟨fuel - 1, by omega⟩
      have he0 : limitsAt (t0 + 500 * 0) = [] := h0 0 (by omega)
      simp only [Nat.mul_zero, Nat.add_zero] at he0
      rw [move_joint_loop_empty_step _ _ _ _ he0]
      have harith : ∀ i : ℕ, t0 + 500 + 500 * i = t0 + 500 * (i + 1) := by
        intro i; ring
      have h0' : ∀ i, i < n → limitsAt (t0 + 500 + 500 * i) = [] := by
        intro i hi
        rw [harith i]
        exact h0 (i + 1) (by omega)
      have hk' : limitsAt (t0 + 500 + 500 * n) ≠ [] := by
        rw [harith n]; exact hk
      have := ih (t0 + 500) f (by omega) h0' hk'
      rw [this, harith n]

/-- C2 counterexample: for the batch `[{no:"99", orientation:"left",
angle:5}]` and a cache that is empty at the first attempt and holds
only the record `("1", "left", -10, 10)` from 500 ms on, the dispatch
produces zero sends even after the cache becomes non-empty — not
"exactly one send reflecting the original batch": a fully-unmatched
batch is dropped without any send. -/
theorem moveJoint_gate_unmatched_no_send :
    cexLimitsAt 500 ≠ [] ∧
    move_joint_loop cexLimitsAt
      [{ no := "99", orientation := "left", angle := JSNum.num 5 }] 0 10 = [] := by
  exact ⟨by decide, by decide⟩

/-- C2 (amended): a `move_joint` dispatched while the limit cache is
empty produces no send and no error, rescheduling the whole original
batch every 500 ms without bound; once the cache is non-empty (say from
the `k`-th attempt on, with content `L`), the pending attempt performs
at most one send, assuming the channel is open: exactly one send
reflecting the original batch when at least one target matches a record
of `L`, and no send at all when no target matches. -/
theorem moveJoint_readiness_gate_amended :
    (∀ (args : List MotorScheme) (t fuel : ℕ),
        move_joint_loop (fun _ => []) args t fuel = []) ∧
    (∀ (args : List MotorScheme) (L : List MotorLimit) (k fuel : ℕ),
        L ≠ [] → k < fuel →
        move_joint_loop (fun t => if t < 500 * k then [] else L) args 0 fuel
          = (if 0 < (moveJointTargets args L).length
             then [{ time := 500 * k, env := moveJointEnvelope (moveJointTargets args L) }]
             else [])) := by
  constructor
  · intro args t fuel
    exact move_joint_loop_never_populated args fuel t
  · intro args L k fuel hL hf
    have h0 : ∀ i, i < k →
        (fun t => if t < 500 * k then [] else L) (0 + 500 * i) = [] := by
      intro i hi
      have : 0 + 500 * i < 500 * k := by omega
      simp only [this, if_pos]
    have hk : (fun t => if t < 500 * k then [] else L) (0 + 500 * k) ≠ [] := by
      have : ¬ 0 + 500 * k < 500 * k := by omega
      simpa [this] using hL
    have := move_joint_loop_first_populated args
      (fun t => if t < 500 * k then [] else L) k 0 fuel hf h0 hk
    have hv : (fun t => if t < 500 * k then [] else L) (0 + 500 * k) = L := by
      have : ¬ 0 + 500 * k < 500 * k := by omega
      simp [this]
    rw [hv] at this
    rw [this]
    simp

/-- Witness for C2 (amended): batch `[("1", "left", 99)]`, cache
populated with `[("1", "left", -10, 10)]` from the second attempt on. -/
theorem moveJoint_readiness_gate_amended_witness :
    move_joint_loop (fun t => if t < 500 * 1 then [] else [cexLimit])
      [{ no := "1", orientation := "left", angle := JSNum.num 99 }] 0 3
      = (if 0 < (moveJointTargets
                  [{ no := "1", orientation := "left", angle := JSNum.num 99 }]
                  [cexLimit]).length
         then [{ time := 500 * 1,
                 env := moveJointEnvelope (moveJointTargets
                   [{ no := "1", orientation := "left", angle := JSNum.num 99 }]
                   [cexLimit]) }]
         else []) :=
  moveJoint_readiness_gate_amended.2
    [{ no := "1", orientation := "left", angle := JSNum.num 99 }]
    [cexLimit] 1 3 (by decide) (by decide)

/- ------------------------------------------------------------------ -/
/- C4                                                                 -/
/- ------------------------------------------------------------------ -/

/-- C4: while the channel is never open, the first five
`websocket_send` attempts each increment the retry counter and schedule
a retry 1000 ms later, and the sixth attempt raises the fatal
"maximum retry limit reached" error rather than dropping the message;
a send attempted while the channel is open transmits the envelope
immediately and resets the retry counter to 0. -/
theorem websocket_send_retry_abandon (m : Envelope) (c : ℕ) :
    (neverOpenRun m 6).1
      = [SendOutcome.scheduled 1000, SendOutcome.scheduled 1000,
         SendOutcome.scheduled 1000, SendOutcome.scheduled 1000,
         SendOutcome.scheduled 1000, SendOutcome.fatal] ∧
    (∀ k, k < 5 → (neverOpenRun m (k + 1)).2 = k + 1) ∧
    websocket_send true c m = (SendOutcome.sent m, 0) := by
  refine ⟨rfl, ?_, rfl⟩
  intro k hk
  interval_cases k <;> rfl

/-- Witness for C4 at a concrete envelope and counter. -/
theorem websocket_send_retry_abandon_witness :
    (neverOpenRun demoEnv 6).1
      = [SendOutcome.scheduled 1000, SendOutcome.scheduled 1000,
         SendOutcome.scheduled 1000, SendOutcome.scheduled 1000,
         SendOutcome.scheduled 1000, SendOutcome.fatal] ∧
    (neverOpenRun demoEnv 5).2 = 5 ∧
    websocket_send true 3 demoEnv = (SendOutcome.sent demoEnv, 0) :=
  ⟨(websocket_send_retry_abandon demoEnv 3).1,
   (websocket_send_retry_abandon demoEnv 3).2.1 4 (by decide),
   (websocket_send_retry_abandon demoEnv 3).2.2⟩

/- ------------------------------------------------------------------ -/
/- C8                                                                 -/
/- ------------------------------------------------------------------ -/

/-- C8 counterexample: the constructor assigns the fetched table
verbatim, so a response containing the same `("1", "left")` record
twice yields a populated cache violating the one-record-per-key
invariant, and a single dispatched target then contributes two entries
to the outbound batch. -/
theorem limit_cache_duplicate_key :
    uniqueKeysB (populate [cexLimit, cexLimit]) = false ∧
    (moveJointTargets [{ no := "1", orientation := "left", angle := JSNum.num 99 }]
        (populate [cexLimit, cexLimit])).length = 2 := by
  exact ⟨rfl, rfl⟩

/-- With at most one record per key, the records matching a given
target's key number at most one. -/
theorem matchKey_filter_len_le_one (t : MotorScheme) :
    ∀ (limits : List MotorLimit), uniqueKeysB limits = true →
      (limits.filter (fun l => matchKey t l)).length ≤ 1 := by
  intro limits
  induction limits with
  | nil => intro _; simp
  | cons l ls ih =>
      intro hu
      simp only [uniqueKeysB, Bool.and_eq_true, Bool.not_eq_true',
        List.any_eq_false] at hu
      obtain ⟨hnone, hrest⟩ := hu
      by_cases hm : matchKey t l = true
      · rw [List.filter_cons_of_pos hm]
        have hnil : ls.filter (fun l2 => matchKey t l2) = [] := by
          rw [List.filter_eq_nil_iff]
          intro l2 hl2 hm2
          have hk1 := hm
          simp only [matchKey, Bool.and_eq_true, decide_eq_true_eq] at hk1 hm2
          have : sameKey l l2 = true := by
            simp only [sameKey, Bool.and_eq_true, decide_eq_true_eq]
            exact ⟨hk1.1 ▸ hm2.1, hk1.2 ▸ hm2.2⟩
          exact absurd this (by simpa using hnone l2 hl2)
        rw [hnil]
        simp
      · rw [List.filter_cons_of_neg hm]
        exact ih hrest

/-- C8 (amended): the constructor assigns the fetched limit table
verbatim and never mutates it afterwards, so the populated cache has at
most one record per compound key exactly when the fetched table does;
under that hypothesis each dispatched target joins with at most one
cache record, and the outbound batch never has more entries than the
caller's batch. -/
theorem limit_cache_unique_join_amended (resp : List MotorLimit)
    (hu : uniqueKeysB resp = true) :
    uniqueKeysB (populate resp) = true ∧
    (∀ t : MotorScheme,
      ((populate resp).filter (fun l => matchKey t l)).length ≤ 1) ∧
    (∀ args : List MotorScheme,
      (moveJointTargets args (populate resp)).length ≤ args.length) := by
  refine ⟨hu, fun t => matchKey_filter_len_le_one t resp hu, ?_⟩
  intro args
  show (moveJointTargets args resp).length ≤ args.length
  induction args with
  | nil => simp [moveJointTargets, normalize, joinTargets]
  | cons m ms ih =>
      have hstep :
          (moveJointTargets (m :: ms) resp).length
            = (resp.filter (fun l => matchKey m l)).length
              + (moveJointTargets ms resp).length := by
        rw [moveJointTargets, moveJointTargets, normalize_eq, normalize_eq]
        simp [joinTargets, List.flatMap_cons]
      rw [hstep]
      have h1 := matchKey_filter_len_le_one m resp hu
      simp only [List.length_cons]
      omega

/-- Witness for C8 (amended) at the singleton fetched table
`[("1", "left", -10, 10)]` and a two-target batch. -/
theorem limit_cache_unique_join_amended_witness :
    (moveJointTargets
        [{ no := "1", orientation := "left", angle := JSNum.num 99 },
         { no := "99", orientation := "left", angle := JSNum.num 5 }]
        (populate [cexLimit])).length
      ≤ ([{ no := "1", orientation := "left", angle := JSNum.num 99 },
          { no := "99", orientation := "left", angle := JSNum.num 5 }]
          : List MotorScheme).length :=
  (limit_cache_unique_join_amended [cexLimit] (by decide)).2.2
    [{ no := "1", orientation := "left", angle := JSNum.num 99 },
     { no := "99", orientation := "left", angle := JSNum.num 5 }]

/- ------------------------------------------------------------------ -/
/- C9                                                                 -/
/- ------------------------------------------------------------------ -/

/-- C9: every config the repository passes to `http_request` lacks a
`timeout` key, and `http_request` then issues the request with the
fixed 5000 ms timeout; the transport performs a single attempt (no
automatic retry) and a call to an endpoint that never responds fails
with a timeout error carrying that 5000 ms bound. -/
theorem http_request_timeout_policy :
    (∀ (baseUrl : String) (config : AxiosRequestConfig),
        config.timeout = none →
        (http_request baseUrl config).timeout = 5000 ∧
        axiosPerform (http_request baseUrl config) false
          = (HttpOutcome.timeoutErr 5000, 1)) ∧
    (∀ config ∈ repoCallConfigs, config.timeout = none) := by
  constructor
  · intro baseUrl config hc
    constructor
    · simp [http_request, hc]
    · simp [axiosPerform, http_request, hc]
  · decide

/-- Witness for C9 at the limits-fetch call of the `Human`
constructor. -/
theorem http_request_timeout_policy_witness :
    (http_request "http://127.0.0.1:8001"
        { method := "GET", url := "/robot/motor/limit/list" }).timeout = 5000 ∧
    axiosPerform
        (http_request "http://127.0.0.1:8001"
          { method := "GET", url := "/robot/motor/limit/list" }) false
      = (HttpOutcome.timeoutErr 5000, 1) :=
  http_request_timeout_policy.1 "http://127.0.0.1:8001"
    { method := "GET", url := "/robot/motor/limit/list" } rfl

/- ------------------------------------------------------------------ -/
/- C10                                                                -/
/- ------------------------------------------------------------------ -/

/-- C10: the guard of `enable_motor` / `disable_motor` only rejects
motor numbers with `parseInt(no) > 8`.  `no = "9"` is rejected as the
claim states, but `no = "-1"` (integer value -1, outside 0..8) and the
non-numeric `no = "abc"` (`parseInt` yields `NaN`, and `NaN > 8` is
false) slip past the guard and are sent — contradicting both the claim
and the code's own log message that the function "can only control
0-8". -/
theorem enable_motor_guard_lower_bound_missing :
    enable_motor "-1" "left"
      = some { command := "enable_motor", data := EnvData.motorSel "-1" "left" } ∧
    disable_motor "-1" "left"
      = some { command := "disable_motor", data := EnvData.motorSel "-1" "left" } ∧
    enable_motor "abc" "left"
      = some { command := "enable_motor", data := EnvData.motorSel "abc" "left" } ∧
    enable_motor "9" "left" = none ∧
    disable_motor "9" "left" = none := by
  exact ⟨rfl, rfl, rfl, rfl, rfl⟩

end GrosClient
